import Mathlib

/-!
Verification development for the arceos readpflash build-and-run tool
(the xtask crate). The definitions below are shallow embeddings of the
functions in xtask/src/main.rs: the architecture profile registry
(`arch_info`), the pflash size table (`pflash_size`), the flash image
constructor (`create_pflash_image`), the emulator argument assembly of
`do_run_qemu` (`qemu_args`), and the orchestration order of `main`
(`main` over an environment of external-tool results). Bytes are
modelled as `Nat` values, byte buffers as `List Nat`, process exits as
explicit outcomes, and external effects (config file presence, child
process exit codes, the firmware located on disk) as an explicit
environment record.
-/

/-- Per-architecture facts returned by the registry `arch_info` in
xtask/src/main.rs (struct ArchInfo). -/
structure ArchInfo where
  target : String
  platform : String
  objcopy_arch : String
deriving DecidableEq

/-- Diagnostic message plus process exit code produced on a fatal path
(the embedding of an `eprintln` followed by `process::exit`). -/
structure ExitFailure where
  message : String
  code : Nat
deriving DecidableEq

/-- Diagnostic text printed by `arch_info` for an unsupported
architecture name, including the offending name and the supported set
(the Rust source joins the two literal fragments with a line
continuation, so the message is a single line). -/
def archErrorMessage (arch : String) : String :=
  "Error: unsupported architecture \x27" ++ arch ++
    "\x27. Supported: riscv64, aarch64, x86_64, loongarch64"

/-- Registry lookup: embedding of `arch_info` in xtask/src/main.rs.
The Rust match over the architecture string becomes a chain of string
comparisons; the `_` arm prints a diagnostic and calls
`process::exit(1)`, embedded as an `Except.error` carrying the message
and the exit code 1. -/
def arch_info (arch : String) : Except ExitFailure ArchInfo :=
  if arch = "riscv64" then
    .ok ⟨"riscv64gc-unknown-none-elf", "riscv64-qemu-virt", "riscv64"⟩
  else if arch = "aarch64" then
    .ok ⟨"aarch64-unknown-none-softfloat", "aarch64-qemu-virt", "aarch64"⟩
  else if arch = "x86_64" then
    .ok ⟨"x86_64-unknown-none", "x86-pc", "x86_64"⟩
  else if arch = "loongarch64" then
    .ok ⟨"loongarch64-unknown-none", "loongarch64-qemu-virt", "loongarch64"⟩
  else
    .error ⟨archErrorMessage arch, 1⟩

/-- Embedding of `pflash_size` in xtask/src/main.rs: the required
pflash image size per architecture, with a 4MB default arm. -/
def pflash_size (arch : String) : Nat :=
  if arch = "riscv64" then 32 * 1024 * 1024
  else if arch = "aarch64" then 64 * 1024 * 1024
  else if arch = "x86_64" then 4 * 1024 * 1024
  else if arch = "loongarch64" then 4 * 1024 * 1024
  else 4 * 1024 * 1024

/-- Byte values of the magic marker `b"PFLA"` written at offset 0. -/
def PFLA_MAGIC : List Nat := [0x50, 0x46, 0x4C, 0x41]

/-- Embedding of `copy_from_slice` into the subrange of a buffer that
starts at `start` and has the length of `data` (the Rust calls write
`image[0..4]` and `image[size - bios_size..]`). -/
def writeSlice (buf : List Nat) (start : Nat) (data : List Nat) : List Nat :=
  buf.take start ++ data ++ buf.drop (start + data.length)

/-- Failure modes of the flash image constructor: `find_seabios`
finding no firmware (a diagnostic plus `process::exit(1)`), and the
firmware-size assertion failing (an abort before any file write). -/
inductive ImgError where
  | firmwareNotFound
  | firmwareTooLarge
deriving DecidableEq

/-- Embedding of `create_pflash_image` in xtask/src/main.rs. The
buffer is allocated filled with `0xFF`, the magic `b"PFLA"` is written
at offset 0, and on the x86_64 path the firmware bytes located by the
firmware locator (`bios`, `none` when `find_seabios` finds nothing)
are written into the final bytes of the buffer after the assertion
`bios_size <= size - 4`. The file write happens after all of this, so
an error value means no image file was produced. -/
def create_pflash_image (arch : String) (bios : Option (List Nat)) :
    Except ImgError (List Nat) :=
  let size := pflash_size arch
  let image := writeSlice (List.replicate size 0xFF) 0 PFLA_MAGIC
  if arch = "x86_64" then
    match bios with
    | none => .error .firmwareNotFound
    | some bios_data =>
      if bios_data.length ≤ size - 4 then
        .ok (writeSlice image (size - bios_data.length) bios_data)
      else
        .error .firmwareTooLarge
  else
    .ok image

/-- Embedding of the argument list assembled by `do_run_qemu` in
xtask/src/main.rs, given the paths of the ELF, the flattened binary
and the pflash image as strings. The `format!` calls for the drive
option become string appends. The default arm of the Rust match is
unreachable (it is only called with a name accepted by `arch_info`)
and is embedded as the empty list. -/
def qemu_args (arch : String) (elf bin pflash : String) : List String :=
  let common : List String := ["-m", "128M", "-smp", "1", "-nographic"]
  if arch = "riscv64" then
    common ++ ["-machine", "virt", "-bios", "default", "-kernel", bin,
      "-drive", "if=pflash,format=raw,unit=1,file=" ++ pflash ++ ",readonly=on"]
  else if arch = "aarch64" then
    common ++ ["-cpu", "cortex-a72", "-machine", "virt", "-kernel", bin,
      "-drive", "if=pflash,format=raw,unit=1,file=" ++ pflash ++ ",readonly=on"]
  else if arch = "x86_64" then
    common ++ ["-machine", "q35",
      "-drive", "if=pflash,format=raw,unit=0,file=" ++ pflash ++ ",readonly=on",
      "-kernel", elf]
  else if arch = "loongarch64" then
    common ++ ["-machine", "virt",
      "-drive", "if=pflash,format=raw,unit=1,file=" ++ pflash ++ ",readonly=on",
      "-kernel", bin]
  else
    []

/-- External actions performed by the orchestrator, in the order they
are attempted: each constructor records one observable side effect of
`main` in xtask/src/main.rs. -/
inductive Step where
  | installConfig (arch : String)
  | compile (target : String)
  | objcopy (a : String)
  | findFirmware
  | writeImage
  | launchQemu (arch : String)
deriving DecidableEq

/-- Final state of the orchestrator process: normal completion, a
`process::exit(code)`, or an abort from a failed assertion. -/
inductive Outcome where
  | ok
  | exited (code : Nat)
  | panicked
deriving DecidableEq

/-- Results of the external collaborators consulted during one
invocation: whether the per-architecture config file exists and the
copy succeeds, the exit codes of the cross compiler and of the
flattening tool, the firmware bytes the locator finds (if any),
whether the image file write succeeds, and the emulator exit status
(`none` models a spawn failure). -/
structure Env where
  configExists : Bool
  copyOk : Bool
  compileExit : Nat
  objcopyExit : Nat
  seabios : Option (List Nat)
  writeOk : Bool
  qemuStatus : Option Nat
deriving DecidableEq

/-- Command line subcommands of the tool (enum Cmd). -/
inductive Cmd where
  | build (arch : String)
  | run (arch : String)
deriving DecidableEq

/-- Shared front of both subcommands: `install_config` followed by
`do_build`. Config absence or a copy failure exits with 1; a compiler
failure exits with the compiler exit code (`status.code().unwrap_or(1)`,
embedded as the recorded code). An `.ok` outcome means the pipeline
continues. -/
def xtask_build (env : Env) (arch : String) (info : ArchInfo) :
    List Step × Outcome :=
  if env.configExists = false then ([Step.installConfig arch], .exited 1)
  else if env.copyOk = false then ([Step.installConfig arch], .exited 1)
  else if env.compileExit ≠ 0 then
    ([Step.installConfig arch, Step.compile info.target], .exited env.compileExit)
  else
    ([Step.installConfig arch, Step.compile info.target], .ok)

/-- Conditional flattening: `do_objcopy` is invoked for every
architecture except x86_64 and exits with the tool exit code on a
non-zero status. -/
def objcopyPhase (env : Env) (arch : String) (info : ArchInfo)
    (t : List Step) : List Step × Outcome :=
  if arch ≠ "x86_64" then
    if env.objcopyExit ≠ 0 then
      (t ++ [Step.objcopy info.objcopy_arch], .exited env.objcopyExit)
    else
      (t ++ [Step.objcopy info.objcopy_arch], .ok)
  else
    (t, .ok)

/-- Image construction inside the run pipeline: on x86_64 the firmware
locator runs first, then `create_pflash_image` decides the result; the
image file write only happens on the successful path. -/
def pflashPhase (env : Env) (arch : String) (t : List Step) :
    List Step × Outcome :=
  let t2 := if arch = "x86_64" then t ++ [Step.findFirmware] else t
  match create_pflash_image arch env.seabios with
  | .error .firmwareNotFound => (t2, .exited 1)
  | .error .firmwareTooLarge => (t2, .panicked)
  | .ok _ =>
    let t3 := t2 ++ [Step.writeImage]
    if env.writeOk = false then (t3, .exited 1) else (t3, .ok)

/-- Emulator status handling at the end of `do_run_qemu`: a spawn
failure exits with 1, a non-zero emulator status is propagated, and a
zero status completes normally. -/
def runQemuOutcome (env : Env) : Outcome :=
  match env.qemuStatus with
  | none => .exited 1
  | some c => if c = 0 then .ok else .exited c

/-- Sequencing of pipeline phases: a phase that did not end in `.ok`
stops the pipeline (every failure in the source is an immediate
process exit). -/
def andThen (r : List Step × Outcome) (k : List Step → List Step × Outcome) :
    List Step × Outcome :=
  match r with
  | (t, .ok) => k t
  | other => other

/-- Run subcommand body after a successful registry lookup:
build phases, conditional objcopy, image construction, emulator
launch. -/
def xtask_run (env : Env) (arch : String) (info : ArchInfo) :
    List Step × Outcome :=
  andThen (xtask_build env arch info) (fun t =>
    andThen (objcopyPhase env arch info t) (fun t2 =>
      andThen (pflashPhase env arch t2) (fun t3 =>
        (t3 ++ [Step.launchQemu arch], runQemuOutcome env))))

/-- Embedding of the `main` function in xtask/src/main.rs: dispatch on the
subcommand, look up the architecture (exiting with the recorded code
when the lookup fails), then run the build or run pipeline. The
returned list records the external actions attempted, in order. -/
def xtask_main (env : Env) (cmd : Cmd) : List Step × Outcome :=
  match cmd with
  | .build arch =>
    match arch_info arch with
    | .error e => ([], .exited e.code)
    | .ok info => xtask_build env arch info
  | .run arch =>
    match arch_info arch with
    | .error e => ([], .exited e.code)
    | .ok info => xtask_run env arch info

/-- Names accepted by the registry. -/
def supportedArchs : List String := ["riscv64", "aarch64", "x86_64", "loongarch64"]

/-- Spec-side predicate: `needle` occurs contiguously inside `hay`. -/
def substrOf (needle hay : String) : Prop :=
  ∃ s t, hay.data = s ++ needle.data ++ t

/-- Spec-side description of the explicitly written tail region: on
x86_64 the located firmware occupies the final bytes, elsewhere
nothing beyond the magic is written. -/
def tailLen (arch : String) (fw : Option (List Nat)) : Nat :=
  if arch = "x86_64" then (fw.getD []).length else 0

/-- Spec-side predicate: the argument list passes a `-drive` option
whose value contains both given fragments. -/
def hasDriveSpec (args : List String) (n1 n2 : String) : Prop :=
  ∃ s spec t, args = s ++ ["-drive", spec] ++ t ∧ substrOf n1 spec ∧ substrOf n2 spec

/-- Spec-side predicate: the argument list passes `-kernel` followed
by the given path. -/
def hasKernelArg (args : List String) (k : String) : Prop :=
  ∃ s t, args = s ++ ["-kernel", k] ++ t

theorem length_take_of_le (l : List Nat) (n : Nat) (h : n ≤ l.length) :
    (l.take n).length = n := by
  simp [List.length_take]
  omega

theorem length_writeSlice (buf data : List Nat) (start : Nat)
    (h : start + data.length ≤ buf.length) :
    (writeSlice buf start data).length = buf.length := by
  simp [writeSlice]
  omega

theorem writeSlice_getElem?_of_lt_start (buf data : List Nat) (start i : Nat)
    (hs : start ≤ buf.length) (h : i < start) :
    (writeSlice buf start data)[i]? = buf[i]? := by
  have ht : (buf.take start).length = start := length_take_of_le buf start hs
  have hl : (buf.take start ++ data).length = start + data.length := by
    rw [List.length_append, ht]
  unfold writeSlice
  rw [List.getElem?_append_left (by rw [hl]; omega),
    List.getElem?_append_left (by rw [ht]; exact h)]
  exact List.getElem?_take_of_lt h

theorem writeSlice_getElem?_mid (buf data : List Nat) (start i : Nat)
    (hs : start ≤ buf.length) (h1 : start ≤ i) (h2 : i < start + data.length) :
    (writeSlice buf start data)[i]? = data[i - start]? := by
  have ht : (buf.take start).length = start := length_take_of_le buf start hs
  have hl : (buf.take start ++ data).length = start + data.length := by
    rw [List.length_append, ht]
  unfold writeSlice
  rw [List.getElem?_append_left (by rw [hl]; omega),
    List.getElem?_append_right (by rw [ht]; exact h1), ht]

theorem writeSlice_getElem?_of_ge (buf data : List Nat) (start i : Nat)
    (hs : start + data.length ≤ buf.length) (h : start + data.length ≤ i) :
    (writeSlice buf start data)[i]? = buf[i]? := by
  have ht : (buf.take start).length = start := length_take_of_le buf start (by omega)
  have hl : (buf.take start ++ data).length = start + data.length := by
    rw [List.length_append, ht]
  unfold writeSlice
  rw [List.getElem?_append_right (by rw [hl]; omega), hl, List.getElem?_drop]
  congr 1
  omega

theorem pflash_size_pos (arch : String) : 4 ≤ pflash_size arch := by
  unfold pflash_size
  split_ifs <;> norm_num

theorem baseImage_length (size : Nat) (h : 4 ≤ size) :
    (writeSlice (List.replicate size 0xFF) 0 PFLA_MAGIC).length = size := by
  have := length_writeSlice (List.replicate size 0xFF) PFLA_MAGIC 0
    (by simp [PFLA_MAGIC]; omega)
  simpa using this

theorem baseImage_getElem?_magic (size i : Nat) (_h4 : 4 ≤ size) (hi : i < 4) :
    (writeSlice (List.replicate size 0xFF) 0 PFLA_MAGIC)[i]? = PFLA_MAGIC[i]? := by
  have := writeSlice_getElem?_mid (List.replicate size 0xFF) PFLA_MAGIC 0 i
    (by simp) (by omega) (by simp [PFLA_MAGIC]; omega)
  simpa using this

theorem baseImage_getElem?_rest (size i : Nat) (h4 : 4 ≤ i) (hi : i < size) :
    (writeSlice (List.replicate size 0xFF) 0 PFLA_MAGIC)[i]? = some 0xFF := by
  have hle : 4 ≤ size := by omega
  have := writeSlice_getElem?_of_ge (List.replicate size 0xFF) PFLA_MAGIC 0 i
    (by simp [PFLA_MAGIC]; omega) (by simp [PFLA_MAGIC]; omega)
  rw [this]
  simp [hi]

theorem substrOf_appendLeft (n a b : String) (h : substrOf n b) :
    substrOf n (a ++ b) := by
  obtain ⟨s, t, hst⟩ := h
  exact ⟨a.data ++ s, t, by simp [hst]⟩

theorem substrOf_appendRight (n a b : String) (h : substrOf n a) :
    substrOf n (a ++ b) := by
  obtain ⟨s, t, hst⟩ := h
  exact ⟨s, t ++ b.data, by simp [hst]⟩

/-- Claim C3: the flash image size returned by the size table for each
supported architecture is exactly 32 MiB for riscv64, 64 MiB for
aarch64, 4 MiB for x86_64, and 4 MiB for loongarch64. -/
theorem pflash_size_table :
    pflash_size "riscv64" = 32 * 1024 * 1024 ∧
    pflash_size "aarch64" = 64 * 1024 * 1024 ∧
    pflash_size "x86_64" = 4 * 1024 * 1024 ∧
    pflash_size "loongarch64" = 4 * 1024 * 1024 :=
  ⟨rfl, rfl, rfl, rfl⟩

/-- Claim C9: flash image construction is deterministic: two
constructions from identical inputs (same architecture name, same
located firmware bytes) produce byte-identical image contents. -/
theorem create_pflash_image_deterministic (arch : String) (fw : Option (List Nat))
    (img₁ img₂ : List Nat)
    (h1 : create_pflash_image arch fw = .ok img₁)
    (h2 : create_pflash_image arch fw = .ok img₂) : img₁ = img₂ := by
  rw [h1] at h2
  exact Except.ok.inj h2

/-- Concrete aarch64 image contents used to witness determinism. -/
def aarch64Image : List Nat :=
  writeSlice (List.replicate (pflash_size "aarch64") 0xFF) 0 PFLA_MAGIC

/-- Witness for claim C9 at the aarch64 profile with no firmware. -/
theorem create_pflash_image_deterministic_witness : aarch64Image = aarch64Image :=
  create_pflash_image_deterministic "aarch64" none aarch64Image aarch64Image rfl rfl

/-- Claim C10: the flash-size lookup totals to a default of 4 MiB on
any unsupported architecture name rather than failing; only the
profile registry lookup fails on an unsupported name. -/
theorem pflash_size_default (arch : String) (h : arch ∉ supportedArchs) :
    pflash_size arch = 4 * 1024 * 1024 ∧ ∃ e, arch_info arch = .error e := by
  simp [supportedArchs] at h
  obtain ⟨h1, h2, h3, h4⟩ := h
  constructor
  · simp [pflash_size, h1, h2, h3, h4]
  · exact ⟨⟨archErrorMessage arch, 1⟩, by simp [arch_info, h1, h2, h3, h4]⟩

/-- Witness for claim C10 at the unsupported name mips. -/
theorem pflash_size_default_witness :
    pflash_size "mips" = 4 * 1024 * 1024 ∧ ∃ e, arch_info "mips" = .error e :=
  pflash_size_default "mips" (by decide)

theorem substrOf_tail_of_message (arch tail n : String) (h : substrOf n tail) :
    substrOf n ("Error: unsupported architecture \x27" ++ arch ++ tail) :=
  substrOf_appendLeft n _ tail h

/-- Claim C6: registry lookup of any name outside the supported set is
a hard failure carrying a non-zero exit code, whose diagnostic names
the offending string and enumerates the supported set; dispatched
through the orchestrator the process terminates with that non-zero
code before any pipeline step runs. -/
theorem arch_info_unsupported (arch : String) (h : arch ∉ supportedArchs) :
    ∃ e, arch_info arch = .error e ∧ e.code ≠ 0 ∧ substrOf arch e.message ∧
      (∀ name ∈ supportedArchs, substrOf name e.message) ∧
      (∀ env : Env, xtask_main env (.build arch) = ([], .exited e.code) ∧
        xtask_main env (.run arch) = ([], .exited e.code)) := by
  simp [supportedArchs] at h
  obtain ⟨h1, h2, h3, h4⟩ := h
  have harch : arch_info arch = .error ⟨archErrorMessage arch, 1⟩ := by
    simp [arch_info, h1, h2, h3, h4]
  refine ⟨⟨archErrorMessage arch, 1⟩, harch, by norm_num, ?_, ?_, ?_⟩
  · exact ⟨("Error: unsupported architecture \x27").data,
      ("\x27. Supported: riscv64, aarch64, x86_64, loongarch64").data,
      by simp [archErrorMessage]⟩
  · intro name hname
    simp only [supportedArchs, List.mem_cons, List.not_mem_nil, or_false] at hname
    show substrOf name (archErrorMessage arch)
    unfold archErrorMessage
    rcases hname with rfl | rfl | rfl | rfl
    · exact substrOf_tail_of_message arch _ _
        ⟨("\x27. Supported: ").data, (", aarch64, x86_64, loongarch64").data, by decide⟩
    · exact substrOf_tail_of_message arch _ _
        ⟨("\x27. Supported: riscv64, ").data, (", x86_64, loongarch64").data, by decide⟩
    · exact substrOf_tail_of_message arch _ _
        ⟨("\x27. Supported: riscv64, aarch64, ").data, (", loongarch64").data, by decide⟩
    · exact substrOf_tail_of_message arch _ _
        ⟨("\x27. Supported: riscv64, aarch64, x86_64, ").data, ("").data, by decide⟩
  · intro env
    constructor <;> simp [xtask_main, harch]

/-- Witness for claim C6 at the unsupported name mips64. -/
theorem arch_info_unsupported_witness :
    ∃ e, arch_info "mips64" = .error e ∧ e.code ≠ 0 ∧ substrOf "mips64" e.message ∧
      (∀ name ∈ supportedArchs, substrOf name e.message) ∧
      (∀ env : Env, xtask_main env (.build "mips64") = ([], .exited e.code) ∧
        xtask_main env (.run "mips64") = ([], .exited e.code)) :=
  arch_info_unsupported "mips64" (by decide)

/-- Claim C1: for every supported architecture name, a successfully
constructed flash image is a byte buffer of length exactly the
per-architecture flash size, bytes in the range below 4 equal the
ASCII marker PFLA, and every byte not explicitly written (between the
marker and the firmware tail, which is empty outside x86_64) is 0xFF. -/
theorem create_pflash_image_layout (arch : String) (fw : Option (List Nat))
    (img : List Nat) (harch : arch ∈ supportedArchs)
    (h : create_pflash_image arch fw = .ok img) :
    img.length = pflash_size arch ∧
    (∀ i, i < 4 → img[i]? = PFLA_MAGIC[i]?) ∧
    (∀ i, 4 ≤ i → i < pflash_size arch - tailLen arch fw → img[i]? = some 0xFF) := by
  have h4 : 4 ≤ pflash_size arch := pflash_size_pos arch
  simp only [supportedArchs, List.mem_cons, List.not_mem_nil, or_false] at harch
  rcases harch with rfl | rfl | rfl | rfl
  · simp [create_pflash_image] at h
    subst h
    refine ⟨baseImage_length _ h4, fun i hi => baseImage_getElem?_magic _ _ h4 hi,
      fun i hi1 hi2 => ?_⟩
    simp [tailLen] at hi2
    exact baseImage_getElem?_rest _ _ hi1 hi2
  · simp [create_pflash_image] at h
    subst h
    refine ⟨baseImage_length _ h4, fun i hi => baseImage_getElem?_magic _ _ h4 hi,
      fun i hi1 hi2 => ?_⟩
    simp [tailLen] at hi2
    exact baseImage_getElem?_rest _ _ hi1 hi2
  · have hbl : (writeSlice (List.replicate (pflash_size "x86_64") 0xFF) 0 PFLA_MAGIC).length
        = pflash_size "x86_64" := baseImage_length _ h4
    cases fw with
    | none => simp [create_pflash_image] at h
    | some data =>
      by_cases hd : data.length ≤ pflash_size "x86_64" - 4
      · simp [create_pflash_image, hd] at h
        subst h
        have hws : (writeSlice (writeSlice (List.replicate (pflash_size "x86_64") 0xFF) 0
            PFLA_MAGIC) (pflash_size "x86_64" - data.length) data).length
            = pflash_size "x86_64" := by
          rw [length_writeSlice _ _ _ (by rw [hbl]; omega), hbl]
        refine ⟨hws, fun i hi => ?_, fun i hi1 hi2 => ?_⟩
        · rw [writeSlice_getElem?_of_lt_start _ _ _ _ (by rw [hbl]; omega) (by omega)]
          exact baseImage_getElem?_magic _ _ h4 hi
        · simp [tailLen] at hi2
          rw [writeSlice_getElem?_of_lt_start _ _ _ _ (by rw [hbl]; omega) (by omega)]
          exact baseImage_getElem?_rest _ _ hi1 (by omega)
      · simp [create_pflash_image, hd] at h
  · simp [create_pflash_image] at h
    subst h
    refine ⟨baseImage_length _ h4, fun i hi => baseImage_getElem?_magic _ _ h4 hi,
      fun i hi1 hi2 => ?_⟩
    simp [tailLen] at hi2
    exact baseImage_getElem?_rest _ _ hi1 hi2

/-- Concrete riscv64 image contents used to witness the layout claim. -/
def riscv64Image : List Nat :=
  writeSlice (List.replicate (pflash_size "riscv64") 0xFF) 0 PFLA_MAGIC

/-- Witness for claim C1 at the riscv64 profile with no firmware. -/
theorem create_pflash_image_layout_witness :
    riscv64Image.length = pflash_size "riscv64" ∧
    (∀ i, i < 4 → riscv64Image[i]? = PFLA_MAGIC[i]?) ∧
    (∀ i, 4 ≤ i → i < pflash_size "riscv64" - tailLen "riscv64" none →
      riscv64Image[i]? = some 0xFF) :=
  create_pflash_image_layout "riscv64" none riscv64Image (by decide) rfl

/-- Claim C2: on the x86_64 path, given firmware of size F at most the
flash size minus 4, construction succeeds, the final F bytes of the
image equal the firmware byte for byte, every byte from offset 4 up to
the start of the firmware tail is 0xFF, and the magic marker below
offset 4 is untouched. -/
theorem create_pflash_image_x86_tail (fw : List Nat)
    (h : fw.length ≤ pflash_size "x86_64" - 4) :
    ∃ img, create_pflash_image "x86_64" (some fw) = .ok img ∧
      (∀ j, j < fw.length → img[pflash_size "x86_64" - fw.length + j]? = fw[j]?) ∧
      (∀ i, 4 ≤ i → i < pflash_size "x86_64" - fw.length → img[i]? = some 0xFF) ∧
      (∀ i, i < 4 → img[i]? = PFLA_MAGIC[i]?) := by
  have h4 : 4 ≤ pflash_size "x86_64" := pflash_size_pos _
  have hbl : (writeSlice (List.replicate (pflash_size "x86_64") 0xFF) 0 PFLA_MAGIC).length
      = pflash_size "x86_64" := baseImage_length _ h4
  refine ⟨writeSlice (writeSlice (List.replicate (pflash_size "x86_64") 0xFF) 0 PFLA_MAGIC)
      (pflash_size "x86_64" - fw.length) fw, by simp [create_pflash_image, h], ?_, ?_, ?_⟩
  · intro j hj
    rw [writeSlice_getElem?_mid _ _ _ _ (by rw [hbl]; omega) (by omega) (by omega)]
    congr 1
    omega
  · intro i hi1 hi2
    rw [writeSlice_getElem?_of_lt_start _ _ _ _ (by rw [hbl]; omega) (by omega)]
    exact baseImage_getElem?_rest _ _ hi1 (by omega)
  · intro i hi
    rw [writeSlice_getElem?_of_lt_start _ _ _ _ (by rw [hbl]; omega) (by omega)]
    exact baseImage_getElem?_magic _ _ h4 hi

/-- Witness for claim C2 with a three byte firmware blob. -/
theorem create_pflash_image_x86_tail_witness :
    ∃ img, create_pflash_image "x86_64" (some [1, 2, 3]) = .ok img ∧
      (∀ j, j < [1, 2, 3].length →
        img[pflash_size "x86_64" - [1, 2, 3].length + j]? = [1, 2, 3][j]?) ∧
      (∀ i, 4 ≤ i → i < pflash_size "x86_64" - [1, 2, 3].length → img[i]? = some 0xFF) ∧
      (∀ i, i < 4 → img[i]? = PFLA_MAGIC[i]?) :=
  create_pflash_image_x86_tail [1, 2, 3] (by decide)

theorem substr_unit1_spec (pflash : String) :
    substrOf "unit=1" ("if=pflash,format=raw,unit=1,file=" ++ pflash ++ ",readonly=on") :=
  substrOf_appendRight _ _ _ (substrOf_appendRight _ _ _
    ⟨("if=pflash,format=raw,").data, (",file=").data, by decide⟩)

theorem substr_unit0_spec (pflash : String) :
    substrOf "unit=0" ("if=pflash,format=raw,unit=0,file=" ++ pflash ++ ",readonly=on") :=
  substrOf_appendRight _ _ _ (substrOf_appendRight _ _ _
    ⟨("if=pflash,format=raw,").data, (",file=").data, by decide⟩)

theorem substr_readonly_spec (p1 pflash : String) :
    substrOf "readonly=on" (p1 ++ pflash ++ ",readonly=on") :=
  substrOf_appendLeft _ _ _ ⟨(",").data, ("").data, by decide⟩

/-- Claim C4: for riscv64, aarch64 and loongarch64 the generated
emulator drive option contains unit=1 and readonly=on and the kernel
argument is the flattened raw binary; for x86_64 the drive option
contains unit=0 and the kernel argument is the ELF. -/
theorem qemu_args_drive_units (elf bin pflash : String) :
    (∀ arch ∈ (["riscv64", "aarch64", "loongarch64"] : List String),
      hasDriveSpec (qemu_args arch elf bin pflash) "unit=1" "readonly=on" ∧
      hasKernelArg (qemu_args arch elf bin pflash) bin) ∧
    hasDriveSpec (qemu_args "x86_64" elf bin pflash) "unit=0" "readonly=on" ∧
    hasKernelArg (qemu_args "x86_64" elf bin pflash) elf := by
  refine ⟨?_, ?_, ?_⟩
  · intro arch harch
    simp only [List.mem_cons, List.not_mem_nil, or_false] at harch
    rcases harch with rfl | rfl | rfl
    · exact ⟨⟨["-m", "128M", "-smp", "1", "-nographic", "-machine", "virt", "-bios",
          "default", "-kernel", bin],
        "if=pflash,format=raw,unit=1,file=" ++ pflash ++ ",readonly=on", [], rfl,
        substr_unit1_spec pflash, substr_readonly_spec _ pflash⟩,
        ⟨["-m", "128M", "-smp", "1", "-nographic", "-machine", "virt", "-bios", "default"],
          ["-drive", "if=pflash,format=raw,unit=1,file=" ++ pflash ++ ",readonly=on"], rfl⟩⟩
    · exact ⟨⟨["-m", "128M", "-smp", "1", "-nographic", "-cpu", "cortex-a72", "-machine",
          "virt", "-kernel", bin],
        "if=pflash,format=raw,unit=1,file=" ++ pflash ++ ",readonly=on", [], rfl,
        substr_unit1_spec pflash, substr_readonly_spec _ pflash⟩,
        ⟨["-m", "128M", "-smp", "1", "-nographic", "-cpu", "cortex-a72", "-machine", "virt"],
          ["-drive", "if=pflash,format=raw,unit=1,file=" ++ pflash ++ ",readonly=on"], rfl⟩⟩
    · exact ⟨⟨["-m", "128M", "-smp", "1", "-nographic", "-machine", "virt"],
        "if=pflash,format=raw,unit=1,file=" ++ pflash ++ ",readonly=on",
        ["-kernel", bin], rfl,
        substr_unit1_spec pflash, substr_readonly_spec _ pflash⟩,
        ⟨["-m", "128M", "-smp", "1", "-nographic", "-machine", "virt", "-drive",
          "if=pflash,format=raw,unit=1,file=" ++ pflash ++ ",readonly=on"], [], rfl⟩⟩
  · exact ⟨["-m", "128M", "-smp", "1", "-nographic", "-machine", "q35"],
      "if=pflash,format=raw,unit=0,file=" ++ pflash ++ ",readonly=on",
      ["-kernel", elf], rfl, substr_unit0_spec pflash, substr_readonly_spec _ pflash⟩
  · exact ⟨["-m", "128M", "-smp", "1", "-nographic", "-machine", "q35", "-drive",
      "if=pflash,format=raw,unit=0,file=" ++ pflash ++ ",readonly=on"], [], rfl⟩

/-- Witness for claim C4 at riscv64 with concrete path strings. -/
theorem qemu_args_drive_units_witness :
    hasDriveSpec (qemu_args "riscv64" "kernel.elf" "kernel.bin" "pflash.img")
      "unit=1" "readonly=on" ∧
    hasKernelArg (qemu_args "riscv64" "kernel.elf" "kernel.bin" "pflash.img")
      "kernel.bin" :=
  (qemu_args_drive_units "kernel.elf" "kernel.bin" "pflash.img").1 "riscv64" (by decide)

theorem create_nonx86_ok (arch : String) (bios : Option (List Nat))
    (hx : ¬ arch = "x86_64") :
    create_pflash_image arch bios =
      .ok (writeSlice (List.replicate (pflash_size arch) 0xFF) 0 PFLA_MAGIC) := by
  simp [create_pflash_image, hx]

theorem run_flatten_aux (env : Env) (arch : String) (info : ArchInfo)
    (hx : ¬ arch = "x86_64") (hinfo : arch_info arch = .ok info)
    (h1 : env.configExists = true) (h2 : env.copyOk = true)
    (h3 : env.compileExit = 0) :
    (∃ rest, (xtask_main env (.run arch)).1 =
      [Step.installConfig arch, Step.compile info.target,
        Step.objcopy info.objcopy_arch] ++ rest) ∧
    (env.objcopyExit ≠ 0 → xtask_main env (.run arch) =
      ([Step.installConfig arch, Step.compile info.target,
        Step.objcopy info.objcopy_arch], .exited env.objcopyExit)) := by
  have hc := create_nonx86_ok arch env.seabios hx
  constructor
  · by_cases ho : env.objcopyExit = 0
    · cases hw : env.writeOk with
      | false => exact ⟨[Step.writeImage], by
          simp [xtask_main, xtask_run, xtask_build, objcopyPhase, pflashPhase,
            runQemuOutcome, andThen, hinfo, hc, hx, h1, h2, h3, ho, hw]⟩
      | true => exact ⟨[Step.writeImage, Step.launchQemu arch], by
          simp [xtask_main, xtask_run, xtask_build, objcopyPhase, pflashPhase,
            runQemuOutcome, andThen, hinfo, hc, hx, h1, h2, h3, ho, hw]⟩
    · exact ⟨[], by simp [xtask_main, xtask_run, xtask_build, objcopyPhase, andThen,
        hinfo, hx, h1, h2, h3, ho]⟩
  · intro ho
    simp [xtask_main, xtask_run, xtask_build, objcopyPhase, andThen,
      hinfo, hx, h1, h2, h3, ho]

/-- Claim C7: in the run pipeline, for every architecture except
x86_64 the external flattening tool is invoked with the profile
objcopy architecture as the third step, after config install and
cross-compile; a non-zero tool exit stops the pipeline with that exit
code; for x86_64 no flattening step ever appears. -/
theorem run_flatten_step :
    (∀ arch ∈ (["riscv64", "aarch64", "loongarch64"] : List String), ∀ env : Env,
      env.configExists = true → env.copyOk = true → env.compileExit = 0 →
      ∃ info, arch_info arch = .ok info ∧
        (∃ rest, (xtask_main env (.run arch)).1 =
          [Step.installConfig arch, Step.compile info.target,
            Step.objcopy info.objcopy_arch] ++ rest) ∧
        (env.objcopyExit ≠ 0 → xtask_main env (.run arch) =
          ([Step.installConfig arch, Step.compile info.target,
            Step.objcopy info.objcopy_arch], .exited env.objcopyExit))) ∧
    (∀ env : Env, ∀ a, Step.objcopy a ∉ (xtask_main env (.run "x86_64")).1) := by
  constructor
  · intro arch harch env h1 h2 h3
    simp only [List.mem_cons, List.not_mem_nil, or_false] at harch
    rcases harch with rfl | rfl | rfl
    · exact ⟨_, rfl, run_flatten_aux env "riscv64" _ (by decide) rfl h1 h2 h3⟩
    · exact ⟨_, rfl, run_flatten_aux env "aarch64" _ (by decide) rfl h1 h2 h3⟩
    · exact ⟨_, rfl, run_flatten_aux env "loongarch64" _ (by decide) rfl h1 h2 h3⟩
  · intro env a
    cases h1 : env.configExists with
    | false => simp [xtask_main, xtask_run, xtask_build, andThen, arch_info, h1]
    | true =>
      cases h2 : env.copyOk with
      | false => simp [xtask_main, xtask_run, xtask_build, andThen, arch_info, h1, h2]
      | true =>
        by_cases h3 : env.compileExit = 0
        · cases hsb : env.seabios with
          | none => simp [xtask_main, xtask_run, xtask_build, objcopyPhase, pflashPhase,
              runQemuOutcome, andThen, arch_info, create_pflash_image, h1, h2, h3, hsb]
          | some fw =>
            by_cases hf : fw.length ≤ pflash_size "x86_64" - 4
            · cases hw : env.writeOk with
              | false => simp [xtask_main, xtask_run, xtask_build, objcopyPhase,
                  pflashPhase, runQemuOutcome, andThen, arch_info, create_pflash_image,
                  h1, h2, h3, hsb, hf, hw]
              | true => simp [xtask_main, xtask_run, xtask_build, objcopyPhase,
                  pflashPhase, runQemuOutcome, andThen, arch_info, create_pflash_image,
                  h1, h2, h3, hsb, hf, hw]
            · simp [xtask_main, xtask_run, xtask_build, objcopyPhase, pflashPhase,
                runQemuOutcome, andThen, arch_info, create_pflash_image,
                h1, h2, h3, hsb, hf]
        · simp [xtask_main, xtask_run, xtask_build, objcopyPhase, andThen, arch_info,
            h1, h2, h3]

/-- Witness for claim C7: riscv64 run with a working compiler and a
flattening tool exiting with code 7 stops after the third step with
exit code 7. -/
theorem run_flatten_step_witness :
    xtask_main ⟨true, true, 0, 7, none, true, some 0⟩ (.run "riscv64") =
      ([Step.installConfig "riscv64", Step.compile "riscv64gc-unknown-none-elf",
        Step.objcopy "riscv64"], .exited 7) := by
  obtain ⟨info, hinfo, _, h2⟩ :=
    run_flatten_step.1 "riscv64" (by decide) ⟨true, true, 0, 7, none, true, some 0⟩
      rfl rfl rfl
  have hr : arch_info "riscv64" =
      .ok ⟨"riscv64gc-unknown-none-elf", "riscv64-qemu-virt", "riscv64"⟩ := rfl
  have hi := Except.ok.inj (hinfo.symm.trans hr)
  subst hi
  exact h2 (by decide)

/-- Claim C8: when the external compiler exits non-zero during either
subcommand, the orchestrator exits with the same code and no further
pipeline step (flattening, image construction, emulator launch) is
attempted. -/
theorem compile_failure_propagates (arch : String) (env : Env)
    (harch : arch ∈ supportedArchs)
    (h1 : env.configExists = true) (h2 : env.copyOk = true)
    (h3 : env.compileExit ≠ 0) :
    ∃ info, arch_info arch = .ok info ∧
      xtask_main env (.build arch) =
        ([Step.installConfig arch, Step.compile info.target], .exited env.compileExit) ∧
      xtask_main env (.run arch) =
        ([Step.installConfig arch, Step.compile info.target], .exited env.compileExit) := by
  simp only [supportedArchs, List.mem_cons, List.not_mem_nil, or_false] at harch
  rcases harch with rfl | rfl | rfl | rfl <;>
    exact ⟨_, rfl,
      by simp [xtask_main, xtask_build, xtask_run, andThen, arch_info, h1, h2, h3],
      by simp [xtask_main, xtask_build, xtask_run, andThen, arch_info, h1, h2, h3]⟩

/-- Witness for claim C8: a compiler failing with exit code 101 on the
riscv64 build makes both subcommands exit with 101 right after the
compile step. -/
theorem compile_failure_propagates_witness :
    ∃ info, arch_info "riscv64" = .ok info ∧
      xtask_main ⟨true, true, 101, 0, none, true, some 0⟩ (.build "riscv64") =
        ([Step.installConfig "riscv64", Step.compile info.target], .exited 101) ∧
      xtask_main ⟨true, true, 101, 0, none, true, some 0⟩ (.run "riscv64") =
        ([Step.installConfig "riscv64", Step.compile info.target], .exited 101) :=
  compile_failure_propagates "riscv64" ⟨true, true, 101, 0, none, true, some 0⟩
    (by decide) rfl rfl (by decide)

/-- Claim C5: on the x86_64 path an oversized firmware blob makes
construction fail on the size assertion and a missing firmware makes
it fail on the locator; in either case the run pipeline never reaches
the image file write, so the flash image file on disk is unchanged. -/
theorem x86_firmware_failure_no_write :
    (∀ fw : List Nat, pflash_size "x86_64" - 4 < fw.length →
      create_pflash_image "x86_64" (some fw) = .error .firmwareTooLarge) ∧
    create_pflash_image "x86_64" none = .error .firmwareNotFound ∧
    (∀ env : Env,
      (env.seabios = none ∨
        ∃ fw, env.seabios = some fw ∧ pflash_size "x86_64" - 4 < fw.length) →
      Step.writeImage ∉ (xtask_main env (.run "x86_64")).1) := by
  refine ⟨?_, by simp [create_pflash_image], ?_⟩
  · intro fw hfw
    have hn : ¬ fw.length ≤ pflash_size "x86_64" - 4 := by omega
    simp [create_pflash_image, hn]
  · intro env hbad
    have hcr : ∃ er, create_pflash_image "x86_64" env.seabios = .error er := by
      rcases hbad with hsb | ⟨fw, hsb, hfw⟩
      · exact ⟨.firmwareNotFound, by rw [hsb]; simp [create_pflash_image]⟩
      · have hn : ¬ fw.length ≤ pflash_size "x86_64" - 4 := by omega
        exact ⟨.firmwareTooLarge, by rw [hsb]; simp [create_pflash_image, hn]⟩
    obtain ⟨er, hcr⟩ := hcr
    cases h1 : env.configExists with
    | false => simp [xtask_main, xtask_run, xtask_build, andThen, arch_info, h1]
    | true =>
      cases h2 : env.copyOk with
      | false => simp [xtask_main, xtask_run, xtask_build, andThen, arch_info, h1, h2]
      | true =>
        by_cases h3 : env.compileExit = 0
        · cases er <;>
            simp [xtask_main, xtask_run, xtask_build, objcopyPhase, pflashPhase,
              runQemuOutcome, andThen, arch_info, hcr, h1, h2, h3]
        · simp [xtask_main, xtask_run, xtask_build, objcopyPhase, andThen, arch_info,
            h1, h2, h3]

/-- Witness for claim C5: an oversized blob is rejected and a run with
no firmware found never records an image write. -/
theorem x86_firmware_failure_no_write_witness :
    create_pflash_image "x86_64" (some (List.replicate (pflash_size "x86_64") 0)) =
      .error .firmwareTooLarge ∧
    Step.writeImage ∉
      (xtask_main ⟨true, true, 0, 0, none, true, some 0⟩ (.run "x86_64")).1 :=
  ⟨x86_firmware_failure_no_write.1 (List.replicate (pflash_size "x86_64") 0)
      (by norm_num [pflash_size]; decide),
    x86_firmware_failure_no_write.2.2 ⟨true, true, 0, 0, none, true, some 0⟩ (Or.inl rfl)⟩
